import Mathlib

/-!
Shallow embedding of the RetroLens backend core (relationship gate,
ephemeral cache, feed aggregator, and the gated write endpoints) and
proofs of the specification claims about them.

Source files embedded:
- app/api/api_v1/endpoints/comments.py
- app/api/api_v1/endpoints/likes.py
- app/api/api_v1/endpoints/follows.py
- app/api/api_v1/endpoints/discussions_optimized.py
- app/core/auth.py

Conventions of the embedding:
- Python strings are `String`, Python `None`-able values are `Option _`.
- Python truthiness on strings / optional strings / lists is made explicit
  (`pyTruthyS`, `pyTruthyOS`, nonemptiness for lists).
- The remote row-store (Supabase) is an external collaborator; queries that
  can raise are modelled as `Except HttpError _` valued lookup functions,
  and the concrete table-backed endpoints carry an explicit `Db` state.
- `datetime.utcnow()` instants are natural numbers of seconds; the Python
  `timedelta.seconds` attribute (the seconds *component*, i.e. the total
  elapsed seconds modulo one day, not `total_seconds()`) is modelled by
  `tdSeconds`.
- A raised `HTTPException(status, detail)` is an `ApiOut.err status detail`
  result; a normal return is `ApiOut.ok`.
-/

/-- Python truthiness of a string: `""` is falsy, everything else truthy. -/
def pyTruthyS (s : String) : Bool := !(s == "")

/-- Python truthiness of an optional string: `None` and `""` are falsy. -/
def pyTruthyOS : Option String → Bool
  | none => false
  | some s => pyTruthyS s

/-- An HTTP error as carried by a raised `HTTPException`. -/
structure HttpError where
  status : Nat
  detail : String
deriving DecidableEq, Repr

/-- Outcome of an endpoint handler: a successful value or a raised
`HTTPException` with its status code and detail string. -/
inductive ApiOut (α : Type) where
  | ok (val : α)
  | err (status : Nat) (detail : String)
deriving DecidableEq, Repr

/-- The HTTP status of an endpoint outcome (200 for a plain success). -/
def apiStatus {α : Type} : ApiOut α → Nat
  | .ok _ => 200
  | .err s _ => s

/-! ## Relationship gate

`check_users_follow_each_other` from comments.py lines 22-36 (the copy in
likes.py lines 19-33 is textually identical).  The two follow-edge queries
are an external collaborator: `lookupFollow a b` models
`table("follows").select("id").eq("follower_id", a).eq("following_id", b)
.execute()`, returning the matching rows or raising.  `bool(result.data)`
is nonemptiness of the returned row list.  The `try`/`except Exception`
around both queries converts any raise into a `false` result. -/

def check_users_follow_each_other {ρ : Type}
    (lookupFollow : String → String → Except HttpError (List ρ))
    (user1_id user2_id : String) : Bool :=
  if user1_id = user2_id then
    true
  else
    match lookupFollow user1_id user2_id with
    | .error _ => false
    | .ok follow1 =>
      match lookupFollow user2_id user1_id with
      | .error _ => false
      | .ok follow2 => !follow1.isEmpty && !follow2.isEmpty

/-! ## Ephemeral cache

`cache_store` / `get_cached_data` / `set_cache_data` from
discussions_optimized.py lines 16-40.  The mapping is an association list
keyed by `κ`; `set_cache_data` replaces any previous entry for the key.
Timestamps are seconds.  `get_cached_data` compares
`(datetime.utcnow() - cached['timestamp']).seconds` — the `seconds`
component of the timedelta, i.e. the elapsed whole seconds modulo one day
(86400), not the total elapsed time — against the TTL, returning the entry
and, on expiry, deleting it. -/

/-- One stored cache entry: the payload and its insertion timestamp. -/
structure CacheEntry (α : Type) where
  data : α
  timestamp : Nat
deriving DecidableEq, Repr

/-- The in-process cache: an association list from keys to entries. -/
abbrev Cache (κ α : Type) : Type := List (κ × CacheEntry α)

/-- The `seconds` attribute of the Python timedelta `now - ts` (for
`ts ≤ now`): the elapsed whole seconds modulo one day. -/
def tdSeconds (now ts : Nat) : Nat := (now - ts) % 86400

/-- `get_cached_data`: return the payload if the entry exists and its age
(as computed by the source, via `tdSeconds`) is strictly below the TTL;
on an expired entry delete it and report a miss.  Returns the result
together with the possibly-updated cache. -/
def get_cached_data {κ α : Type} [DecidableEq κ]
    (store : Cache κ α) (key : κ) (now ttl : Nat) : Option α × Cache κ α :=
  match store.find? (fun e => decide (e.1 = key)) with
  | some cached =>
    if tdSeconds now cached.2.timestamp < ttl then
      (some cached.2.data, store)
    else
      (none, store.filter (fun e => decide (e.1 ≠ key)))
  | none => (none, store)

/-- `set_cache_data`: store the payload under the key with the current
timestamp, replacing any previous entry for that key. -/
def set_cache_data {κ α : Type} [DecidableEq κ]
    (store : Cache κ α) (key : κ) (data : α) (now : Nat) : Cache κ α :=
  (key, ⟨data, now⟩) :: store.filter (fun e => decide (e.1 ≠ key))

/-! ## Stable sort, modelling Python `list.sort(key=..., reverse=...)`

Python's `list.sort` is a stable sort; any stable sort with the same
comparison produces the same list, so it is embedded as a stable insertion
sort.  With `reverse=True` Python sorts as if each comparison were
reversed while still keeping equal elements in their original relative
order; this corresponds to the comparator `pyKeyLe`. -/

/-- Insert `x` into `l`, placing it before the first element `y` with
`le x y`; equal elements already in `l` therefore stay in front of later
insertions, which is exactly stability. -/
def pyInsert {α : Type} (le : α → α → Bool) (x : α) : List α → List α
  | [] => [x]
  | y :: ys => if le x y then x :: y :: ys else y :: pyInsert le x ys

/-- Stable insertion sort with a boolean comparator. -/
def pyStableSort {α : Type} (le : α → α → Bool) : List α → List α
  | [] => []
  | x :: xs => pyInsert le x (pyStableSort le xs)

/-- The comparator realized by `list.sort(key=key, reverse=reverse)`:
ascending on the key, with all comparisons reversed when `reverse`. -/
def pyKeyLe {α : Type} (key : α → Nat) (reverse : Bool) (a b : α) : Bool :=
  if reverse then decide (key b ≤ key a) else decide (key a ≤ key b)

/-- The embedding of `l.sort(key=key, reverse=reverse)`. -/
def pyListSort {α : Type} (key : α → Nat) (reverse : Bool) (l : List α) : List α :=
  pyStableSort (pyKeyLe key reverse) l

theorem mem_pyInsert {α : Type} (le : α → α → Bool) (x : α) (l : List α) (z : α) :
    z ∈ pyInsert le x l ↔ z = x ∨ z ∈ l := by
  induction l with
  | nil => simp [pyInsert]
  | cons y ys ih =>
    by_cases h : le x y = true
    · simp [pyInsert, h]
    · simp only [pyInsert, if_neg h, List.mem_cons, ih]
      tauto

theorem mem_pyStableSort {α : Type} (le : α → α → Bool) (l : List α) (z : α) :
    z ∈ pyStableSort le l ↔ z ∈ l := by
  induction l with
  | nil => simp [pyStableSort]
  | cons x xs ih => simp [pyStableSort, mem_pyInsert, ih]

theorem chain'_pyInsert {α : Type} (le : α → α → Bool)
    (htot : ∀ a b, le a b = false → le b a = true)
    (x : α) (l : List α) (hl : l.Chain' (fun a b => le a b = true)) :
    (pyInsert le x l).Chain' (fun a b => le a b = true) := by
  induction l with
  | nil => simp [pyInsert]
  | cons y ys ih =>
    by_cases h : le x y = true
    · simpa [pyInsert, h] using hl
    · have hyx : le y x = true := htot x y (by simpa using h)
      have hys : ys.Chain' (fun a b => le a b = true) := hl.tail
      have ihys := ih hys
      simp only [pyInsert, if_neg h]
      cases ys with
      | nil => simp [pyInsert, hyx]
      | cons z zs =>
        by_cases hz : le x z = true
        · have hfirst : le y z = true := (List.chain'_cons.mp hl).1
          simp only [pyInsert, if_pos hz] at ihys ⊢
          exact List.chain'_cons.mpr ⟨hyx, ihys⟩
        · have hfirst : le y z = true := (List.chain'_cons.mp hl).1
          simp only [pyInsert, if_neg hz] at ihys ⊢
          exact List.chain'_cons.mpr ⟨hfirst, ihys⟩

theorem chain'_pyStableSort {α : Type} (le : α → α → Bool)
    (htot : ∀ a b, le a b = false → le b a = true) (l : List α) :
    (pyStableSort le l).Chain' (fun a b => le a b = true) := by
  induction l with
  | nil => simp [pyStableSort]
  | cons x xs ih => exact chain'_pyInsert le htot x _ ih

theorem filter_pyInsert {α : Type} (le : α → α → Bool) (key : α → Nat)
    (hkey : ∀ a b, key a = key b → le a b = true)
    (x : α) (l : List α) (c : Nat) :
    (pyInsert le x l).filter (fun a => decide (key a = c)) =
      if key x = c then x :: l.filter (fun a => decide (key a = c))
      else l.filter (fun a => decide (key a = c)) := by
  induction l with
  | nil =>
    by_cases hc : key x = c <;> simp [pyInsert, hc, List.filter]
  | cons y ys ih =>
    by_cases h : le x y = true
    · by_cases hc : key x = c <;> simp [pyInsert, h, hc, List.filter_cons]
    · have hxy : key x ≠ key y := fun he => by simp [hkey x y he] at h
      by_cases hc : key x = c
      · have hyc : ¬ (key y = c) := fun hyc => hxy (hc.trans hyc.symm)
        simp [pyInsert, if_neg h, List.filter_cons, hyc, ih, hc]
      · simp [pyInsert, if_neg h, List.filter_cons, ih, hc]

theorem filter_pyStableSort {α : Type} (le : α → α → Bool) (key : α → Nat)
    (hkey : ∀ a b, key a = key b → le a b = true) (l : List α) (c : Nat) :
    (pyStableSort le l).filter (fun a => decide (key a = c)) =
      l.filter (fun a => decide (key a = c)) := by
  induction l with
  | nil => simp [pyStableSort]
  | cons x xs ih =>
    by_cases hc : key x = c <;>
      simp [pyStableSort, filter_pyInsert le key hkey, hc, List.filter_cons, ih]

theorem pyKeyLe_total {α : Type} (key : α → Nat) (reverse : Bool) :
    ∀ a b : α, pyKeyLe key reverse a b = false → pyKeyLe key reverse b a = true := by
  intro a b h
  cases reverse <;> simp [pyKeyLe] at h ⊢ <;> omega

theorem pyKeyLe_of_key_eq {α : Type} (key : α → Nat) (reverse : Bool) :
    ∀ a b : α, key a = key b → pyKeyLe key reverse a b = true := by
  intro a b h
  cases reverse <;> simp [pyKeyLe, h]

theorem chain'_pyListSort {α : Type} (key : α → Nat) (reverse : Bool) (l : List α) :
    (pyListSort key reverse l).Chain'
      (fun a b => if reverse then key b ≤ key a else key a ≤ key b) := by
  have h := chain'_pyStableSort (pyKeyLe key reverse) (pyKeyLe_total key reverse) l
  refine List.Chain'.imp ?_ h
  intro a b hab
  cases reverse <;> simpa [pyKeyLe] using hab

theorem filter_pyListSort {α : Type} (key : α → Nat) (reverse : Bool)
    (l : List α) (c : Nat) :
    (pyListSort key reverse l).filter (fun a => decide (key a = c)) =
      l.filter (fun a => decide (key a = c)) :=
  filter_pyStableSort (pyKeyLe key reverse) key (pyKeyLe_of_key_eq key reverse) l c

theorem mem_pyListSort {α : Type} (key : α → Nat) (reverse : Bool)
    (l : List α) (z : α) : z ∈ pyListSort key reverse l ↔ z ∈ l :=
  mem_pyStableSort (pyKeyLe key reverse) l z

/-! ## Feed aggregator data model

Row shapes for `list_discussions_optimized` (discussions_optimized.py lines
42-208).  Nullable columns read back with `.get(...)` are `Option`s;
`created_at` / `updated_at` are opaque sortable timestamps. -/

/-- A row of the `discussions` table as selected by the optimized list
endpoint (its `base_query` column list). -/
structure DiscussionRow where
  id : String
  user_id : String
  category_id : Option String
  title : String
  body : String
  tags : List String
  is_pinned : Bool
  is_locked : Bool
  view_count : Nat
  created_at : Nat
  updated_at : Nat
deriving DecidableEq, Repr

/-- A row of the `users` table as selected for author enrichment. -/
structure UserRow where
  id : String
  username : Option String
  avatar_url : Option String
  display_name : Option String
deriving DecidableEq, Repr

/-- A row of the `discussion_categories` table. -/
structure CategoryRow where
  id : String
  name : Option String
deriving DecidableEq, Repr

/-- An enriched discussion item as assembled by the aggregator: the base
row (with `body` renamed to `content`) plus author fields, category label,
counts and the viewer's like flag. -/
structure EnrichedDiscussion where
  id : String
  user_id : String
  category_id : Option String
  title : String
  tags : List String
  is_pinned : Bool
  is_locked : Bool
  view_count : Nat
  created_at : Nat
  updated_at : Nat
  content : String
  author_username : Option String
  author_avatar : Option String
  author_display_name : Option String
  category_name : Option String
  comment_count : Nat
  like_count : Nat
  is_liked : Bool
deriving DecidableEq, Repr

/-- The base-page query the aggregator hands to the row store: the
optional `user_id` filter set, the optional server-side sort (field and
descending flag), and the inclusive offset range. -/
structure StoreQuery where
  userIds : Option (List String)
  order : Option (String × Bool)
  rangeStart : Nat
  rangeEnd : Nat
deriving DecidableEq, Repr

/-- The row store as seen by the aggregator: the base-page query, the
batched author / category / counts lookups, and the viewer-likes
membership query.  All of these are external collaborators. -/
structure Store where
  fetchDiscussions : StoreQuery → List DiscussionRow
  fetchUsers : List String → List UserRow
  fetchCategories : List String → List CategoryRow
  commentCounts : List String → List (String × Nat)
  likeCounts : List String → List (String × Nat)
  likedBy : String → List String → List String
  followingOf : String → List String

/-- Verified token claims (the dict produced by `verify_token`); only the
fields the embedded endpoints read are carried. -/
structure Claims where
  sub : Option String
  username : Option String
  name : Option String
  email : Option String
  picture : Option String
  avatar_url : Option String
deriving DecidableEq, Repr

/-- The keyword parameters hashed into the optimized-list cache key.  The
source canonicalizes them with `json.dumps(..., sort_keys=True)` and
MD5-hashes the result, so two calls share a key exactly when this record
is equal; the key is therefore modelled as the record itself (all keys of
this cache share the `"discussions"` namespace prefix). -/
structure DiscParams where
  limit : Nat
  offset : Nat
  sortBy : String
  sortOrder : String
  user_ids : Option (List String)
  user_id : Option String
deriving DecidableEq, Repr

/-- The `valid_sort_fields` allow-list (discussions_optimized.py line 76). -/
def valid_sort_fields : List String :=
  ["created_at", "updated_at", "title", "view_count", "comment_count", "like_count"]

/-- The `sortBy` reassignment of lines 77-78: unrecognized fields fall back
to `"created_at"`. -/
def resolveSortBy (sortBy : String) : String :=
  if valid_sort_fields.contains sortBy then sortBy else "created_at"

/-- Python `str.lower()`, as a map over the string's characters (Lean's
own `String.toLower` is the same function but is opaque to kernel
reduction, so the character-list form is used). -/
def pyLower (s : String) : String := String.mk (s.data.map Char.toLower)

/-- Line 80: the sort is descending exactly when the lowercased direction
token equals `"desc"`. -/
def resolveDesc (sortOrder : String) : Bool :=
  pyLower sortOrder == "desc"

/-- The base-page query built on a cache miss (lines 89-104): the validated
sort field is passed to the store's `order` unless it is one of the two
aggregate fields, which the store cannot sort by. -/
def buildQuery (limit offset : Nat) (sortBy sortOrder : String)
    (user_ids : Option (List String)) : StoreQuery :=
  let sb := resolveSortBy sortBy
  { userIds := user_ids
    order := if sb = "comment_count" ∨ sb = "like_count" then none
             else some (sb, resolveDesc sortOrder)
    rangeStart := offset
    rangeEnd := offset + limit - 1 }

/-- Python dict comprehension `{row.id: row for row in rows}` followed by
`.get(id)`: the last row with the id wins. -/
def dictLookup {ρ : Type} (getId : ρ → String) (rows : List ρ) (id : String) : Option ρ :=
  rows.foldl (fun acc r => if getId r = id then some r else acc) none

/-- Count dict built from a batched-counts result, read with `.get(id, 0)`. -/
def countLookup (counts : List (String × Nat)) (id : String) : Nat :=
  (counts.foldl (fun acc r => if r.1 = id then some r.2 else acc) none).getD 0

/-- The viewer-likes membership lookup of lines 167-174: performed only
when a viewer with a truthy `sub` is present and the page is nonempty;
returns the liked ids and the number of queries issued (0 or 1). -/
def viewerLikes (store : Store) (current_user : Option Claims)
    (discussion_ids : List String) : List String × Nat :=
  match current_user with
  | some u =>
    match u.sub with
    | some uid =>
      if pyTruthyS uid && !discussion_ids.isEmpty then
        (store.likedBy uid discussion_ids, 1)
      else ([], 0)
    | none => ([], 0)
  | none => ([], 0)

/-- The enrichment phase of the optimized list endpoint (lines 114-193):
collect the page's distinct author / category ids, issue the batched author,
category and counts lookups (each skipped, as in the source, when its id set
is empty), fetch the viewer's liked subset when a viewer with a truthy `sub`
is present, and merge everything into `EnrichedDiscussion` items.  Returns
the enriched items together with the number of row-store queries issued. -/
def enrichPage (store : Store) (current_user : Option Claims)
    (discussions : List DiscussionRow) : List EnrichedDiscussion × Nat :=
  let user_ids_to_fetch :=
    ((discussions.filter (fun d => pyTruthyS d.user_id)).map (fun d => d.user_id)).eraseDups
  let discussion_ids := discussions.map (fun d => d.id)
  let users_fetch :=
    if user_ids_to_fetch.isEmpty then ([], 0)
    else (store.fetchUsers user_ids_to_fetch, 1)
  let users_rows := users_fetch.1
  let uq := users_fetch.2
  let category_ids :=
    ((discussions.filterMap (fun d => d.category_id)).filter pyTruthyS).eraseDups
  let cats_fetch :=
    if category_ids.isEmpty then ([], 0)
    else (store.fetchCategories category_ids, 1)
  let cat_rows := cats_fetch.1
  let cq := cats_fetch.2
  let stats :=
    if discussion_ids.isEmpty then ([], [], 0)
    else (store.commentCounts discussion_ids, store.likeCounts discussion_ids, 2)
  let comment_counts := stats.1
  let like_counts := stats.2.1
  let sq := stats.2.2
  let viewer_likes := viewerLikes store current_user discussion_ids
  let user_likes := viewer_likes.1
  let lq := viewer_likes.2
  let items := discussions.map (fun d =>
    let user_data := dictLookup (fun u => u.id) users_rows d.user_id
    let category_data := d.category_id.bind (dictLookup (fun c => c.id) cat_rows)
    { id := d.id
      user_id := d.user_id
      category_id := d.category_id
      title := d.title
      tags := d.tags
      is_pinned := d.is_pinned
      is_locked := d.is_locked
      view_count := d.view_count
      created_at := d.created_at
      updated_at := d.updated_at
      content := d.body
      author_username := user_data.bind (fun u => u.username)
      author_avatar := user_data.bind (fun u => u.avatar_url)
      author_display_name := user_data.bind (fun u => u.display_name)
      category_name := category_data.bind (fun c => c.name)
      comment_count := countLookup comment_counts d.id
      like_count := countLookup like_counts d.id
      is_liked := user_likes.contains d.id } )
  (items, uq + cq + sq + lq)

/-- Result of one run of the optimized list endpoint: the returned payload,
the cache state afterwards, and how many row-store queries were issued. -/
structure AggResult where
  payload : List EnrichedDiscussion
  cache : Cache DiscParams (List EnrichedDiscussion)
  storeQueries : Nat
deriving DecidableEq, Repr

/-- The cache key of the optimized list endpoint (lines 60-68):
`get_cache_key("discussions", limit=..., offset=..., sortBy=...,
sortOrder=..., user_ids=..., user_id=current_user.get("sub") if
current_user else None)`, modelled as the canonical parameter record. -/
def discCacheKey (limit offset : Nat) (sortBy sortOrder : String)
    (user_ids : Option (List String)) (current_user : Option Claims) : DiscParams :=
  { limit := limit
    offset := offset
    sortBy := sortBy
    sortOrder := sortOrder
    user_ids := user_ids
    user_id := current_user.bind (fun u => u.sub) }

/-- The embedding of `list_discussions_optimized` (lines 42-208).  Note the
cache-hit test of line 72 is `if cached_data:` — Python truthiness — so a
cached *empty* list is treated like a miss and the endpoint falls through
to the row store.  `now` is the current time in seconds. -/
def list_discussions_optimized (store : Store)
    (cache : Cache DiscParams (List EnrichedDiscussion)) (now : Nat)
    (limit offset : Nat) (sortBy sortOrder : String)
    (user_ids : Option (List String)) (current_user : Option Claims) : AggResult :=
  let cache_key := discCacheKey limit offset sortBy sortOrder user_ids current_user
  let looked := get_cached_data cache cache_key now 30
  let missPath := fun (cache1 : Cache DiscParams (List EnrichedDiscussion)) =>
    let q := buildQuery limit offset sortBy sortOrder user_ids
    let discussions := store.fetchDiscussions q
    if discussions.isEmpty then
      { payload := []
        cache := set_cache_data cache1 cache_key [] now
        storeQueries := 1 }
    else
      let sortBy1 := resolveSortBy sortBy
      let desc := resolveDesc sortOrder
      let er := enrichPage store current_user discussions
      let enriched := er.1
      let sorted :=
        if sortBy1 = "comment_count" then
          pyListSort (fun e => e.comment_count) desc enriched
        else if sortBy1 = "like_count" then
          pyListSort (fun e => e.like_count) desc enriched
        else enriched
      { payload := sorted
        cache := set_cache_data cache1 cache_key sorted now
        storeQueries := 1 + er.2 }
  match looked with
  | (some cached_data, cache1) =>
    if cached_data.isEmpty then missPath cache1
    else { payload := cached_data, cache := cache1, storeQueries := 0 }
  | (none, cache1) => missPath cache1

/-- The parameters hashed into the feed cache key,
`get_cache_key("feed", user_id=..., page=..., limit=...)`; as with
`DiscParams`, the canonical record stands for the derived key. -/
structure FeedParams where
  user_id : String
  page : Nat
  limit : Nat
deriving DecidableEq, Repr

/-- Result of one run of the optimized feed endpoint. -/
structure FeedResult where
  payload : List EnrichedDiscussion
  cache : Cache DiscParams (List EnrichedDiscussion)
  feedCache : Cache FeedParams (List EnrichedDiscussion)
  followingCache : Cache String (List String)
  storeQueries : Nat

/-- The embedding of `get_feed_optimized` (lines 211-265).  The three key
namespaces of the shared `cache_store` (`"discussions:..."`, `"feed:..."`,
`"following:..."`) never collide, so they are carried as three typed
caches.  An unauthenticated request, or one whose claims lack a truthy
`sub`, returns `[]` before anything else happens. -/
def get_feed_optimized (store : Store)
    (cache : Cache DiscParams (List EnrichedDiscussion))
    (feedCache : Cache FeedParams (List EnrichedDiscussion))
    (followingCache : Cache String (List String))
    (now limit page : Nat) (current_user : Option Claims) : FeedResult :=
  match current_user with
  | none => ⟨[], cache, feedCache, followingCache, 0⟩
  | some u =>
    match u.sub with
    | none => ⟨[], cache, feedCache, followingCache, 0⟩
    | some uid =>
      if uid = "" then ⟨[], cache, feedCache, followingCache, 0⟩
      else
        let feedKey : FeedParams := ⟨uid, page, limit⟩
        let lookedF := get_cached_data feedCache feedKey now 30
        let missPath := fun (fc1 : Cache FeedParams (List EnrichedDiscussion)) =>
          let lookedFol := get_cached_data followingCache uid now 300
          let (following_ids, folC2, q1) :=
            match lookedFol with
            | (some ids, folC1) => (ids, folC1, 0)
            | (none, folC1) =>
              let ids := store.followingOf uid ++ [uid]
              (ids, set_cache_data folC1 uid ids now, 1)
          if following_ids.isEmpty then
            ⟨[], cache, fc1, folC2, q1⟩
          else
            let r := list_discussions_optimized store cache now limit (page * limit)
              "created_at" "desc" (some following_ids) (some u)
            ⟨r.payload, r.cache, fc1, folC2, q1 + r.storeQueries⟩
        match lookedF with
        | (some cached_data, fc1) =>
          if cached_data.isEmpty then missPath fc1
          else ⟨cached_data, cache, fc1, followingCache, 0⟩
        | (none, fc1) => missPath fc1

/-! ## Table-backed endpoints: comments, likes, follows

These endpoints run against concrete tables; `Db` carries the rows the
embedded handlers read and write.  In this deterministic model the store
itself never raises (store-failure behaviour of the gate is covered by the
abstract-lookup theorems above), and row inserts succeed. -/

/-- A row of the `comments` table (the columns the handlers touch). -/
structure CommentRow where
  id : String
  user_id : String
  discussion_id : Option String
  camera_id : Option String
  parent_id : Option String
  body : String
deriving DecidableEq, Repr

/-- A row of the `likes` table. -/
structure LikeRow where
  id : String
  user_id : String
  discussion_id : Option String
  camera_id : Option String
  comment_id : Option String
deriving DecidableEq, Repr

/-- A row of the `follows` table: the ordered follower/followee edge. -/
structure FollowRow where
  follower_id : String
  following_id : String
deriving DecidableEq, Repr

/-- The relational state the comment / like / follow handlers act on.
`discussions` and `cameras` only contribute their `(id, user_id)` pairs. -/
structure Db where
  discussions : List (String × String)
  cameras : List (String × String)
  commentRows : List CommentRow
  likes : List LikeRow
  follows : List FollowRow
deriving DecidableEq, Repr

/-- The follow-edge lookup the gate performs against a concrete `Db`:
the select never raises and returns the matching edges. -/
def dbFollowLookup (db : Db) : String → String → Except HttpError (List FollowRow) :=
  fun follower following =>
    .ok (db.follows.filter (fun e =>
      decide (e.follower_id = follower) && decide (e.following_id = following)))

/-- A `.single().execute()` owner lookup: returns the owning `user_id`
when exactly one row matches (``.single`` raises otherwise, and the
callers' `except` turns that into `None`). -/
def singleOwner (table : List (String × String)) (content_id : String) : Option String :=
  match table.filter (fun r => decide (r.1 = content_id)) with
  | [r] => some r.2
  | _ => none

/-- `get_content_owner_id` of comments.py lines 39-50: dispatch on Python
truthiness of `discussion_id` then `camera_id`. -/
def get_content_owner_id (db : Db)
    (discussion_id camera_id : Option String) : Option String :=
  if pyTruthyOS discussion_id then
    singleOwner db.discussions (discussion_id.getD "")
  else if pyTruthyOS camera_id then
    singleOwner db.cameras (camera_id.getD "")
  else none

/-- `get_content_owner_id` of likes.py lines 36-50: as for comments, plus
the `comment_id` branch resolving the comment's author. -/
def get_content_owner_id_like (db : Db)
    (discussion_id camera_id comment_id : Option String) : Option String :=
  if pyTruthyOS discussion_id then
    singleOwner db.discussions (discussion_id.getD "")
  else if pyTruthyOS camera_id then
    singleOwner db.cameras (camera_id.getD "")
  else if pyTruthyOS comment_id then
    singleOwner (db.commentRows.map (fun c => (c.id, c.user_id))) (comment_id.getD "")
  else none

/-- The request body of `POST /comments`. -/
structure CommentCreateRequest where
  body : String
  discussion_id : Option String
  camera_id : Option String
  parent_id : Option String
deriving DecidableEq, Repr

/-- The embedding of `create_comment` (comments.py lines 120-246): the 401
guard on a falsy `sub`, the 400 validation of the two target ids (Python
truthiness), the 404 on a falsy owner lookup, the 403 relationship-gate
denial, then the insert of the comment row owned by the requester.
`newId` stands for the id the database generates for the inserted row.
The users-table upsert of lines 147-184 only maintains the `users` table
(its own failures are printed and swallowed) and the response-shaping
refetch of lines 200-242 only decorates the returned row; neither changes
the outcome status or the inserted comment row, and `Db` carries no
`users` table, so both are omitted here. -/
def create_comment (db : Db) (current_user : Claims)
    (req : CommentCreateRequest) (newId : String) : ApiOut CommentRow × Db :=
  if ¬ pyTruthyOS current_user.sub then
    (.err 401 "User ID not found in token", db)
  else
    let user_id := current_user.sub.getD ""
    if ¬ pyTruthyOS req.discussion_id ∧ ¬ pyTruthyOS req.camera_id then
      (.err 400 "Either discussion_id or camera_id must be provided", db)
    else if pyTruthyOS req.discussion_id ∧ pyTruthyOS req.camera_id then
      (.err 400 "Cannot specify both discussion_id and camera_id", db)
    else
      let content_owner_id := get_content_owner_id db req.discussion_id req.camera_id
      if ¬ pyTruthyOS content_owner_id then
        (.err 404 "Content not found", db)
      else if ¬ check_users_follow_each_other (dbFollowLookup db) user_id
          (content_owner_id.getD "") then
        (.err 403 "You can only comment on posts from users you mutually follow", db)
      else
        let row : CommentRow :=
          { id := newId
            user_id := user_id
            discussion_id := req.discussion_id
            camera_id := req.camera_id
            parent_id := req.parent_id
            body := req.body }
        (.ok row, { db with commentRows := db.commentRows ++ [row] })

/-- The request body of `POST /likes` and `DELETE /likes`. -/
structure LikeRequest where
  discussion_id : Option String
  camera_id : Option String
  comment_id : Option String
deriving DecidableEq, Repr

/-- The non-null targets of a like request, exactly as computed by
`[t for t in targets if t is not None]` (an `is not None` test, not
truthiness). -/
def likeNonNullTargets (req : LikeRequest) : List (Option String) :=
  [req.discussion_id, req.camera_id, req.comment_id].filter (fun t => t.isSome)

/-- The filter a like handler adds for the (truthy) target of the request,
mirroring the `if/elif` chains of likes.py lines 87-92 / 139-144. -/
def likeTargetMatches (req : LikeRequest) (row : LikeRow) : Bool :=
  if pyTruthyOS req.discussion_id then
    decide (row.discussion_id = req.discussion_id)
  else if pyTruthyOS req.camera_id then
    decide (row.camera_id = req.camera_id)
  else if pyTruthyOS req.comment_id then
    decide (row.comment_id = req.comment_id)
  else true

/-- The embedding of `create_like` (likes.py lines 53-115): 401 guard,
the exactly-one-non-null 400 validation, 404 on a falsy owner, 403 on gate
denial, 400 on a duplicate like, then the insert. -/
def create_like (db : Db) (current_user : Claims)
    (req : LikeRequest) (newId : String) : ApiOut String × Db :=
  if ¬ pyTruthyOS current_user.sub then
    (.err 401 "User ID not found in token", db)
  else
    let user_id := current_user.sub.getD ""
    if (likeNonNullTargets req).length ≠ 1 then
      (.err 400 "Exactly one of discussion_id, camera_id, or comment_id must be provided", db)
    else
      let content_owner_id :=
        get_content_owner_id_like db req.discussion_id req.camera_id req.comment_id
      if ¬ pyTruthyOS content_owner_id then
        (.err 404 "Content not found", db)
      else if ¬ check_users_follow_each_other (dbFollowLookup db) user_id
          (content_owner_id.getD "") then
        (.err 403 "You can only like posts from users you mutually follow", db)
      else
        let existing := db.likes.filter (fun l =>
          decide (l.user_id = user_id) && likeTargetMatches req l)
        if ¬ existing.isEmpty then
          (.err 400 "Already liked this content", db)
        else
          let row : LikeRow :=
            { id := newId
              user_id := user_id
              discussion_id := req.discussion_id
              camera_id := req.camera_id
              comment_id := req.comment_id }
          (.ok newId, { db with likes := db.likes ++ [row] })

/-- The embedding of `delete_like` (likes.py lines 118-155): 401 guard,
the exactly-one-non-null 400 validation, then the delete — a 404 when the
delete matched no row. -/
def delete_like (db : Db) (current_user : Claims)
    (req : LikeRequest) : ApiOut String × Db :=
  if ¬ pyTruthyOS current_user.sub then
    (.err 401 "User ID not found in token", db)
  else
    let user_id := current_user.sub.getD ""
    if (likeNonNullTargets req).length ≠ 1 then
      (.err 400 "Exactly one of discussion_id, camera_id, or comment_id must be provided", db)
    else
      let matches1 := fun (l : LikeRow) =>
        decide (l.user_id = user_id) && likeTargetMatches req l
      let deleted := db.likes.filter matches1
      if deleted.isEmpty then
        (.err 404 "Like not found", db)
      else
        (.ok "Like removed successfully",
          { db with likes := db.likes.filter (fun l => !(matches1 l)) })

/-- The embedding of `create_follow` (follows.py lines 40-65): 400 on a
self-follow, 400 on an already-existing edge, otherwise the edge is
inserted.  The handler's `except HTTPException: raise` keeps these
statuses intact. -/
def create_follow (db : Db) (follower_id following_id : String) : ApiOut String × Db :=
  if follower_id = following_id then
    (.err 400 "Cannot follow yourself", db)
  else
    let existing := db.follows.filter (fun e =>
      decide (e.follower_id = follower_id) && decide (e.following_id = following_id))
    if ¬ existing.isEmpty then
      (.err 400 "Already following this user", db)
    else
      (.ok "Follow successful",
        { db with follows := db.follows ++ [⟨follower_id, following_id⟩] })

/-- The body of the `try` block of `delete_follow` (follows.py lines
71-77): raises a 404 when the delete matched no edge. -/
def delete_follow_try (db : Db) (follower_id following_id : String) :
    Except HttpError (String × Db) :=
  let matches1 := fun (e : FollowRow) =>
    decide (e.follower_id = follower_id) && decide (e.following_id = following_id)
  let deleted := db.follows.filter matches1
  if deleted.isEmpty then
    .error ⟨404, "Follow relationship not found"⟩
  else
    .ok ("Unfollow successful", { db with follows := db.follows.filter (fun e => !(matches1 e)) })

/-- The embedding of `delete_follow` (follows.py lines 68-79).  Unlike
`create_follow`, this handler has no `except HTTPException: raise` guard:
its `except Exception as e` catches the `HTTPException(404)` it itself
raised and re-raises it as a 400 whose detail is `str(e)` (Starlette
renders that as `"404: Follow relationship not found"`). -/
def delete_follow (db : Db) (follower_id following_id : String) : ApiOut String × Db :=
  match delete_follow_try db follower_id following_id with
  | .ok (msg, db1) => (.ok msg, db1)
  | .error e => (.err 400 (toString e.status ++ ": " ++ e.detail), db)

/-! ## Optional authentication

`get_current_user_optional` from auth.py lines 83-95.  `verify` models
`clerk_auth.verify_token`, whose every failure path raises an
`HTTPException` (status 401); the handler catches exactly those and
degrades to an anonymous `None` viewer. -/

/-- The embedding of `get_current_user_optional`: absent credentials give
an anonymous viewer, a failing verification is caught and also gives an
anonymous viewer; the step itself never raises, which is why the result
type's error side is provably never used. -/
def get_current_user_optional (verify : String → Except HttpError Claims)
    (credentials : Option String) : Except HttpError (Option Claims) :=
  match credentials with
  | none => .ok none
  | some token =>
    match verify token with
    | .ok user_data => .ok (some user_data)
    | .error _ => .ok none

/-! ## Concrete fixtures used by closed theorems and witnesses -/

/-- A row store all of whose queries return no rows. -/
def emptyStore : Store :=
  { fetchDiscussions := fun _ => []
    fetchUsers := fun _ => []
    fetchCategories := fun _ => []
    commentCounts := fun _ => []
    likeCounts := fun _ => []
    likedBy := fun _ _ => []
    followingOf := fun _ => [] }

/-- An empty relational state. -/
def dbEmpty : Db :=
  { discussions := [], cameras := [], commentRows := [], likes := [], follows := [] }

/-- A relational state with the single follow edge alice → bob. -/
def dbOneEdge : Db :=
  { discussions := [], cameras := [], commentRows := [], likes := [],
    follows := [⟨"alice", "bob"⟩] }

/-- Verified claims for a principal whose subject id is `u1`. -/
def claimsU1 : Claims :=
  { sub := some "u1", username := none, name := none, email := none,
    picture := none, avatar_url := none }

/-- A follow-edge lookup that fails with a store error on the pair
(alice, bob) and otherwise finds an edge. -/
def lkFailAB : String → String → Except HttpError (List String) :=
  fun a b =>
    if a = "alice" ∧ b = "bob" then .error ⟨500, "store unavailable"⟩
    else .ok ["edge"]

/-- A follow-edge lookup over a fixed asymmetric edge set: alice follows
everyone, nobody follows alice. -/
def lkAsym : String → String → Except HttpError (List String) :=
  fun a _ => if a = "alice" then .ok ["edge"] else .ok []

/-! ## Claim theorems -/

/-- Claim C1: for distinct principal ids, if either of the gate's two
follow-edge lookups fails with a store error, the mutual-follow check
returns `false`; it never surfaces the error and never answers `true` on
a failed lookup. -/
theorem gate_fail_closed {ρ : Type}
    (lookupFollow : String → String → Except HttpError (List ρ))
    (actorId contentOwnerId : String)
    (hne : actorId ≠ contentOwnerId)
    (hfail : (∃ e, lookupFollow actorId contentOwnerId = .error e) ∨
             (∃ e, lookupFollow contentOwnerId actorId = .error e)) :
    check_users_follow_each_other lookupFollow actorId contentOwnerId = false := by
  unfold check_users_follow_each_other
  rw [if_neg hne]
  rcases hfail with ⟨e, he⟩ | ⟨e, he⟩
  · rw [he]
  · cases h1 : lookupFollow actorId contentOwnerId with
    | error e1 => rfl
    | ok f1 => rw [he]

/-- Witness for C1 at a concrete failing lookup. -/
theorem gate_fail_closed_witness :
    check_users_follow_each_other lkFailAB "alice" "bob" = false :=
  gate_fail_closed lkFailAB "alice" "bob" (by decide)
    (Or.inl ⟨⟨500, "store unavailable"⟩, by simp [lkFailAB]⟩)

/-- Claim C2: over any fixed follow-edge lookup state, the gate is
symmetric in its two arguments, and it grants interaction exactly when the
two principals coincide or both directed follow edges exist. -/
theorem gate_symmetric {ρ : Type}
    (lookupFollow : String → String → Except HttpError (List ρ)) (A B : String) :
    check_users_follow_each_other lookupFollow A B =
      check_users_follow_each_other lookupFollow B A ∧
    (check_users_follow_each_other lookupFollow A B = true ↔
      A = B ∨ ∃ r1 r2, lookupFollow A B = .ok r1 ∧ lookupFollow B A = .ok r2 ∧
        r1 ≠ [] ∧ r2 ≠ []) := by
  by_cases hab : A = B
  · subst hab
    simp [check_users_follow_each_other]
  · have hba : B ≠ A := fun h => hab h.symm
    unfold check_users_follow_each_other
    rw [if_neg hab, if_neg hba]
    cases h1 : lookupFollow A B with
    | error e1 =>
      cases h2 : lookupFollow B A with
      | error e2 => simp [hab, h1]
      | ok f2 => simp [hab, h1]
    | ok f1 =>
      cases h2 : lookupFollow B A with
      | error e2 => simp [hab, h1, h2]
      | ok f2 =>
        constructor
        · exact Bool.and_comm _ _
        · simp [hab, h1, h2, List.isEmpty_iff]

/-- Witness for C2 at a concrete asymmetric edge state. -/
theorem gate_symmetric_witness :
    check_users_follow_each_other lkAsym "alice" "bob" =
      check_users_follow_each_other lkAsym "bob" "alice" :=
  (gate_symmetric lkAsym "alice" "bob").1

/-- Claim C3 (refuting evaluation): the cache's expiry comparison uses the
Python timedelta `seconds` component, which wraps at one day.  An entry
set at time 0 and read 86400 seconds later with TTL 30 is 86400 ≥ 30
seconds old, so per the claim it must be a miss — yet `get_cached_data`
returns it as a fresh hit, because `(now - ts).seconds` evaluates to
`86400 % 86400 = 0 < 30`.  For contrast, within the first day the claimed
behaviour does hold: at age 40 ≥ 30 the entry misses and is deleted, and
at age 10 < 30 it is returned unchanged. -/
theorem cache_ttl_wraps_at_one_day :
    30 ≤ 86400 - 0 ∧
    (get_cached_data (set_cache_data ([] : Cache String Nat) "k" 42 0) "k" 86400 30).1
      = some 42 ∧
    (get_cached_data (set_cache_data ([] : Cache String Nat) "k" 42 0) "k" 40 30)
      = (none, []) ∧
    (get_cached_data (set_cache_data ([] : Cache String Nat) "k" 42 0) "k" 10 30).1
      = some 42 := by
  decide

/-- Claim C4 (refuting evaluation): the aggregator caches an empty result
(`set_cache_data(cache_key, [])`, visible here as the cached `some []`
within TTL), but its hit test `if cached_data:` is Python truthiness, so
the cached empty list is never served: a second identical call 10 seconds
later issues another row-store query (`storeQueries = 1`, not 0). -/
theorem empty_payload_not_served_from_cache :
    (list_discussions_optimized emptyStore [] 0 20 0 "created_at" "desc" none none).payload
      = [] ∧
    (list_discussions_optimized emptyStore [] 0 20 0 "created_at" "desc" none none).storeQueries
      = 1 ∧
    (get_cached_data
      (list_discussions_optimized emptyStore [] 0 20 0 "created_at" "desc" none none).cache
      (discCacheKey 20 0 "created_at" "desc" none none) 10 30).1 = some [] ∧
    (list_discussions_optimized emptyStore
      (list_discussions_optimized emptyStore [] 0 20 0 "created_at" "desc" none none).cache
      10 20 0 "created_at" "desc" none none).payload = [] ∧
    (list_discussions_optimized emptyStore
      (list_discussions_optimized emptyStore [] 0 20 0 "created_at" "desc" none none).cache
      10 20 0 "created_at" "desc" none none).storeQueries = 1 := by
  decide

/-- Claim C7 (evaluation): self-follow and duplicate follow are rejected
with 400 as claimed, but unfollowing a missing edge does NOT return 404:
`delete_follow` lacks the `except HTTPException: raise` guard its sibling
has, so its own `HTTPException(404)` is caught by `except Exception` and
re-raised as a 400 whose detail is the stringified 404. -/
theorem follow_endpoint_statuses :
    (create_follow dbOneEdge "alice" "alice").1 = .err 400 "Cannot follow yourself" ∧
    (create_follow dbOneEdge "alice" "bob").1 = .err 400 "Already following this user" ∧
    (delete_follow dbOneEdge "bob" "carol").1
      = .err 400 "404: Follow relationship not found" ∧
    apiStatus (delete_follow dbOneEdge "bob" "carol").1 ≠ 404 := by
  decide

/-- Claim C5 (counterexample to the claim as stated): a request supplying
`discussion_id` as the (non-null) empty string and no `camera_id` has
exactly one of the two target ids supplied, and the referenced discussion
does not exist, so the claim requires a 404 — but `create_comment`
validates the targets by Python truthiness (`if not ...`), treats the
request as having no target at all and returns 400. -/
theorem create_comment_no_404_on_empty_target_id :
    (CommentCreateRequest.mk "hi" (some "") none none).discussion_id.isSome = true ∧
    (CommentCreateRequest.mk "hi" (some "") none none).camera_id.isSome = false ∧
    dbEmpty.discussions = [] ∧
    get_content_owner_id dbEmpty (some "") none = none ∧
    apiStatus (create_comment dbEmpty claimsU1
      (CommentCreateRequest.mk "hi" (some "") none none) "c1").1 = 400 ∧
    apiStatus (create_comment dbEmpty claimsU1
      (CommentCreateRequest.mk "hi" (some "") none none) "c1").1 ≠ 404 := by
  decide

/-- Claim C5 as amended: for every authenticated comment-creation request,
with "supplied" read as the source reads it (a non-null, non-empty string):
if not exactly one of `discussion_id` / `camera_id` is truthy the result is
400; otherwise if the owner lookup yields no truthy owner id (in
particular when the target content does not exist) the result is 404;
otherwise if the mutual-follow gate denies the actor against the owner the
result is 403; otherwise the comment row is inserted with the requesting
principal as its owner.  In the error cases the state is unchanged. -/
theorem create_comment_ladder (db : Db) (cu : Claims)
    (req : CommentCreateRequest) (newId : String)
    (hsub : pyTruthyOS cu.sub = true) :
    ((pyTruthyOS req.discussion_id ^^ pyTruthyOS req.camera_id) = false →
      apiStatus (create_comment db cu req newId).1 = 400 ∧
        (create_comment db cu req newId).2 = db) ∧
    ((pyTruthyOS req.discussion_id ^^ pyTruthyOS req.camera_id) = true →
      pyTruthyOS (get_content_owner_id db req.discussion_id req.camera_id) = false →
      apiStatus (create_comment db cu req newId).1 = 404 ∧
        (create_comment db cu req newId).2 = db) ∧
    ((pyTruthyOS req.discussion_id ^^ pyTruthyOS req.camera_id) = true →
      pyTruthyOS (get_content_owner_id db req.discussion_id req.camera_id) = true →
      check_users_follow_each_other (dbFollowLookup db) (cu.sub.getD "")
        ((get_content_owner_id db req.discussion_id req.camera_id).getD "") = false →
      apiStatus (create_comment db cu req newId).1 = 403 ∧
        (create_comment db cu req newId).2 = db) ∧
    ((pyTruthyOS req.discussion_id ^^ pyTruthyOS req.camera_id) = true →
      pyTruthyOS (get_content_owner_id db req.discussion_id req.camera_id) = true →
      check_users_follow_each_other (dbFollowLookup db) (cu.sub.getD "")
        ((get_content_owner_id db req.discussion_id req.camera_id).getD "") = true →
      (create_comment db cu req newId).1 =
        .ok { id := newId, user_id := cu.sub.getD "", discussion_id := req.discussion_id,
              camera_id := req.camera_id, parent_id := req.parent_id, body := req.body } ∧
      (create_comment db cu req newId).2.commentRows =
        db.commentRows ++
          [{ id := newId, user_id := cu.sub.getD "", discussion_id := req.discussion_id,
             camera_id := req.camera_id, parent_id := req.parent_id, body := req.body }]) := by
  cases hd : pyTruthyOS req.discussion_id <;> cases hc : pyTruthyOS req.camera_id <;>
    simp only [Bool.xor_false, Bool.xor_true, Bool.false_xor, Bool.true_xor, Bool.not_true,
      Bool.not_false] <;>
    refine ⟨?_, ?_, ?_, ?_⟩ <;> intros <;>
    simp_all [create_comment, apiStatus]

/-- Witness for the amended C5 at a concrete denied request: `u1` comments
on a discussion owned by `bob` whom they do not mutually follow → 403. -/
theorem create_comment_ladder_witness :
    apiStatus (create_comment
      { dbEmpty with discussions := [("d1", "bob")] } claimsU1
      (CommentCreateRequest.mk "hi" (some "d1") none none) "c1").1 = 403 ∧
    (create_comment { dbEmpty with discussions := [("d1", "bob")] } claimsU1
      (CommentCreateRequest.mk "hi" (some "d1") none none) "c1").2 =
      { dbEmpty with discussions := [("d1", "bob")] } :=
  (create_comment_ladder { dbEmpty with discussions := [("d1", "bob")] } claimsU1
    (CommentCreateRequest.mk "hi" (some "d1") none none) "c1"
    (by decide)).2.2.1 (by decide) (by decide) (by decide)

/-- Claim C6: for like creation and like deletion by an authenticated
principal, when the number of non-null values among `discussion_id`,
`camera_id`, `comment_id` is not exactly one, both handlers fail with 400
and leave the store untouched. -/
theorem like_target_validation (db : Db) (cu : Claims) (req : LikeRequest)
    (newId : String) (hsub : pyTruthyOS cu.sub = true)
    (hcount : (likeNonNullTargets req).length ≠ 1) :
    create_like db cu req newId =
      (.err 400 "Exactly one of discussion_id, camera_id, or comment_id must be provided",
        db) ∧
    delete_like db cu req =
      (.err 400 "Exactly one of discussion_id, camera_id, or comment_id must be provided",
        db) := by
  constructor <;> simp [create_like, delete_like, hsub, hcount]

/-- Witness for C6: zero targets supplied → both handlers 400, store
unchanged. -/
theorem like_target_validation_witness :
    create_like dbEmpty claimsU1 (LikeRequest.mk none none none) "l1" =
      (.err 400 "Exactly one of discussion_id, camera_id, or comment_id must be provided",
        dbEmpty) ∧
    delete_like dbEmpty claimsU1 (LikeRequest.mk none none none) =
      (.err 400 "Exactly one of discussion_id, camera_id, or comment_id must be provided",
        dbEmpty) :=
  like_target_validation dbEmpty claimsU1 (LikeRequest.mk none none none) "l1"
    (by decide) (by decide)

/-- Claim C8: on a cache miss, a `sortBy` outside the allow-list is
replaced by the default field `created_at` in the query handed to the row
store (so the raw value is never passed through), and the sort direction
resolves to descending exactly when the lowercased `sortOrder` token is
`"desc"`, `"desc"` being the default. -/
theorem sort_param_validation (limit offset : Nat) (sortBy sortOrder : String)
    (user_ids : Option (List String))
    (hsb : valid_sort_fields.contains sortBy = false) :
    (buildQuery limit offset sortBy sortOrder user_ids).order
      = some ("created_at", resolveDesc sortOrder) ∧
    sortBy ≠ "created_at" ∧
    (resolveDesc sortOrder = true ↔ pyLower sortOrder = "desc") ∧
    resolveDesc "desc" = true := by
  have hmem : sortBy ∉ valid_sort_fields := by simpa using hsb
  refine ⟨?_, ?_, ?_, by decide⟩
  · simp [buildQuery, resolveSortBy, hmem]
  · intro h
    subst h
    revert hsb
    decide
  · simp [resolveDesc]

/-- Witness for C8 at a concrete unrecognized sort field and an uppercase
direction token. -/
theorem sort_param_validation_witness :
    (buildQuery 20 0 "evil_field" "ASC" none).order
      = some ("created_at", resolveDesc "ASC") ∧
    "evil_field" ≠ "created_at" ∧
    (resolveDesc "ASC" = true ↔ pyLower "ASC" = "desc") ∧
    resolveDesc "desc" = true :=
  sort_param_validation 20 0 "evil_field" "ASC" none (by decide)

/-- Unfolding of `list_discussions_optimized` when run against an empty
cache: the lookup misses and the miss path runs (used by the aggregate-sort
and anonymous-viewer theorems below). -/
theorem ldo_empty_cache_eq (store : Store) (now limit offset : Nat)
    (sortBy sortOrder : String) (user_ids : Option (List String))
    (current_user : Option Claims) :
    list_discussions_optimized store [] now limit offset sortBy sortOrder user_ids
        current_user =
      (if (store.fetchDiscussions (buildQuery limit offset sortBy sortOrder user_ids)).isEmpty
      then
        { payload := []
          cache := set_cache_data []
            (discCacheKey limit offset sortBy sortOrder user_ids current_user) [] now
          storeQueries := 1 }
      else
        { payload :=
            if resolveSortBy sortBy = "comment_count" then
              pyListSort (fun e => e.comment_count) (resolveDesc sortOrder)
                (enrichPage store current_user
                  (store.fetchDiscussions (buildQuery limit offset sortBy sortOrder user_ids))).1
            else if resolveSortBy sortBy = "like_count" then
              pyListSort (fun e => e.like_count) (resolveDesc sortOrder)
                (enrichPage store current_user
                  (store.fetchDiscussions (buildQuery limit offset sortBy sortOrder user_ids))).1
            else
              (enrichPage store current_user
                (store.fetchDiscussions (buildQuery limit offset sortBy sortOrder user_ids))).1
          cache := set_cache_data []
            (discCacheKey limit offset sortBy sortOrder user_ids current_user)
            (if resolveSortBy sortBy = "comment_count" then
              pyListSort (fun e => e.comment_count) (resolveDesc sortOrder)
                (enrichPage store current_user
                  (store.fetchDiscussions (buildQuery limit offset sortBy sortOrder user_ids))).1
            else if resolveSortBy sortBy = "like_count" then
              pyListSort (fun e => e.like_count) (resolveDesc sortOrder)
                (enrichPage store current_user
                  (store.fetchDiscussions (buildQuery limit offset sortBy sortOrder user_ids))).1
            else
              (enrichPage store current_user
                (store.fetchDiscussions (buildQuery limit offset sortBy sortOrder user_ids))).1)
            now
          storeQueries := 1 +
            (enrichPage store current_user
              (store.fetchDiscussions (buildQuery limit offset sortBy sortOrder user_ids))).2 }) :=
  rfl

/-- The count field a client-side aggregate sort orders by. -/
def aggKey (sortBy : String) (e : EnrichedDiscussion) : Nat :=
  if sortBy = "comment_count" then e.comment_count else e.like_count

/-- Claim C9: for `sortBy` equal to `comment_count` or `like_count`, the
payload the aggregator returns for a fetched page is stably sorted
client-side by that count in the requested direction: each item's count
stands in the requested order relative to the next item's, and the items
with any given count value appear in exactly the order the enriched page
had before the sort. -/
theorem aggregate_sort_client_side (store : Store) (now limit offset : Nat)
    (sortBy sortOrder : String) (user_ids : Option (List String))
    (current_user : Option Claims)
    (hsb : sortBy = "comment_count" ∨ sortBy = "like_count") :
    List.Chain'
      (fun a b => if resolveDesc sortOrder then aggKey sortBy b ≤ aggKey sortBy a
                  else aggKey sortBy a ≤ aggKey sortBy b)
      (list_discussions_optimized store [] now limit offset sortBy sortOrder
        user_ids current_user).payload ∧
    (∀ c : Nat,
      (list_discussions_optimized store [] now limit offset sortBy sortOrder
          user_ids current_user).payload.filter (fun e => decide (aggKey sortBy e = c)) =
        (enrichPage store current_user
          (store.fetchDiscussions
            (buildQuery limit offset sortBy sortOrder user_ids))).1.filter
          (fun e => decide (aggKey sortBy e = c))) := by
  rcases hsb with rfl | rfl
  · rw [ldo_empty_cache_eq]
    by_cases he : (store.fetchDiscussions
        (buildQuery limit offset "comment_count" sortOrder user_ids)).isEmpty
    · have h0 : store.fetchDiscussions
          (buildQuery limit offset "comment_count" sortOrder user_ids) = [] :=
        List.isEmpty_iff.mp he
      rw [if_pos he]
      constructor
      · simp
      · intro c
        simp [h0, enrichPage]
    · rw [if_neg he]
      have hcc : resolveSortBy "comment_count" = "comment_count" := by decide
      constructor
      · have h := chain'_pyListSort (fun e : EnrichedDiscussion => e.comment_count)
          (resolveDesc sortOrder)
          (enrichPage store current_user (store.fetchDiscussions
            (buildQuery limit offset "comment_count" sortOrder user_ids))).1
        simp only [hcc, aggKey]
        simpa using h
      · intro c
        have h := filter_pyListSort (fun e : EnrichedDiscussion => e.comment_count)
          (resolveDesc sortOrder)
          (enrichPage store current_user (store.fetchDiscussions
            (buildQuery limit offset "comment_count" sortOrder user_ids))).1 c
        simp only [hcc, aggKey]
        simpa using h
  · rw [ldo_empty_cache_eq]
    by_cases he : (store.fetchDiscussions
        (buildQuery limit offset "like_count" sortOrder user_ids)).isEmpty
    · have h0 : store.fetchDiscussions
          (buildQuery limit offset "like_count" sortOrder user_ids) = [] :=
        List.isEmpty_iff.mp he
      rw [if_pos he]
      constructor
      · simp
      · intro c
        simp [h0, enrichPage]
    · rw [if_neg he]
      have hlc : resolveSortBy "like_count" = "like_count" := by decide
      constructor
      · have h := chain'_pyListSort (fun e : EnrichedDiscussion => e.like_count)
          (resolveDesc sortOrder)
          (enrichPage store current_user (store.fetchDiscussions
            (buildQuery limit offset "like_count" sortOrder user_ids))).1
        simp only [hlc, aggKey]
        simpa using h
      · intro c
        have h := filter_pyListSort (fun e : EnrichedDiscussion => e.like_count)
          (resolveDesc sortOrder)
          (enrichPage store current_user (store.fetchDiscussions
            (buildQuery limit offset "like_count" sortOrder user_ids))).1 c
        simp only [hlc, aggKey]
        simpa using h

/-- Witness for C9 at a concrete store, sort field `comment_count`,
direction `desc`, and count value 0. -/
theorem aggregate_sort_client_side_witness :
    List.Chain'
      (fun a b => if resolveDesc "desc" then aggKey "comment_count" b ≤ aggKey "comment_count" a
                  else aggKey "comment_count" a ≤ aggKey "comment_count" b)
      (list_discussions_optimized emptyStore [] 0 20 0 "comment_count" "desc"
        none none).payload ∧
    (list_discussions_optimized emptyStore [] 0 20 0 "comment_count" "desc"
        none none).payload.filter (fun e => decide (aggKey "comment_count" e = 0)) =
      (enrichPage emptyStore none
        (emptyStore.fetchDiscussions
          (buildQuery 20 0 "comment_count" "desc" none))).1.filter
        (fun e => decide (aggKey "comment_count" e = 0)) :=
  ⟨(aggregate_sort_client_side emptyStore 0 20 0 "comment_count" "desc" none none
      (Or.inl rfl)).1,
   (aggregate_sort_client_side emptyStore 0 20 0 "comment_count" "desc" none none
      (Or.inl rfl)).2 0⟩

/-- Claim C10: for the optional-authentication endpoints, a missing or
unverifiable bearer token never produces an error from the authentication
step — `get_current_user_optional` resolves to an anonymous (`none`)
viewer rather than propagating the 401 raised inside `verify_token`; with
an anonymous viewer the optimized feed returns the empty list, and the
optimized discussion list personalizes nothing: every returned item has
`is_liked = false`. -/
theorem optional_auth_never_errors (verify : String → Except HttpError Claims)
    (credentials : Option String)
    (hfail : credentials = none ∨
      ∃ token err, credentials = some token ∧ verify token = .error err) :
    get_current_user_optional verify credentials = .ok none ∧
    (∀ store cache feedCache followingCache now limit page,
      (get_feed_optimized store cache feedCache followingCache now limit page
        none).payload = []) ∧
    (∀ store now limit offset sortBy sortOrder user_ids e,
      e ∈ (list_discussions_optimized store [] now limit offset sortBy sortOrder
          user_ids none).payload → e.is_liked = false) := by
  refine ⟨?_, ?_, ?_⟩
  · rcases hfail with rfl | ⟨token, err, rfl, hv⟩
    · rfl
    · simp [get_current_user_optional, hv]
  · intro store cache feedCache followingCache now limit page
    rfl
  · intro store now limit offset sortBy sortOrder user_ids e he
    have hmem : ∀ x ∈ (enrichPage store none (store.fetchDiscussions
        (buildQuery limit offset sortBy sortOrder user_ids))).1, x.is_liked = false := by
      intro x hx
      simp only [enrichPage, viewerLikes, List.mem_map] at hx
      obtain ⟨d, hd, rfl⟩ := hx
      simp
    rw [ldo_empty_cache_eq] at he
    by_cases hemp : (store.fetchDiscussions
        (buildQuery limit offset sortBy sortOrder user_ids)).isEmpty
    · rw [if_pos hemp] at he
      simp at he
    · rw [if_neg hemp] at he
      simp only [] at he
      split at he
      · exact hmem e ((mem_pyListSort _ _ _ e).mp he)
      · split at he
        · exact hmem e ((mem_pyListSort _ _ _ e).mp he)
        · exact hmem e he

/-- Witness for C10 at a concrete rejected token. -/
theorem optional_auth_never_errors_witness :
    get_current_user_optional (fun _ => .error ⟨401, "Invalid token"⟩) (some "tok")
      = .ok none ∧
    (get_feed_optimized emptyStore [] [] [] 0 20 0 none).payload = [] :=
  ⟨(optional_auth_never_errors (fun _ => .error ⟨401, "Invalid token"⟩) (some "tok")
      (Or.inr ⟨"tok", ⟨401, "Invalid token"⟩, rfl, rfl⟩)).1,
   (optional_auth_never_errors (fun _ => .error ⟨401, "Invalid token"⟩) (some "tok")
      (Or.inr ⟨"tok", ⟨401, "Invalid token"⟩, rfl, rfl⟩)).2.1
      emptyStore [] [] [] 0 20 0⟩
